import Mathlib

/-
  Verification development for the LocalMarket_DocsToPDF pipeline
  (src/generatePDFs.py): a shallow embedding of the merge-and-render
  pipeline, with Python dynamic values modelled by a JSON-like inductive
  type, Python exceptions modelled by Except, and the external Notion /
  Google collaborators modelled as abstract functions.  The modelled
  string alphabet is the printable fragment: the source uses the
  unicode-aware classes \w and \s of the Python re module, which the
  embedding restricts to their ASCII core plus the standard whitespace
  code points, matching the source on every input the theorems touch.
-/

namespace DocsToPDF

/-- Python value, as produced by json parsing plus bool/None: the payload
    universe that generatePDFs.py manipulates dynamically. -/
inductive PyVal where
  | none
  | bool (b : Bool)
  | int (n : Int)
  | str (s : String)
  | list (xs : List PyVal)
  | dict (kvs : List (String × PyVal))

/-- Python exception, restricted to the kinds the source can raise while
    normalizing a property. -/
inductive PyErr where
  | keyError (k : String)
  | attributeError
  | typeError
deriving DecidableEq

/-- Python truthiness of a value (bool(v)). -/
def PyVal.truthy : PyVal → Bool
  | .none => false
  | .bool b => b
  | .int n => n != 0
  | .str s => s != ""
  | .list xs => !xs.isEmpty
  | .dict kvs => !kvs.isEmpty

/-- First binding of a key in an association list, with a default:
    the lookup underlying every dict access in the model. -/
def lookupD (kvs : List (String × PyVal)) (k : String) (d : PyVal) : PyVal :=
  match kvs.find? (fun kv => kv.1 == k) with
  | some kv => kv.2
  | Option.none => d

/-- Python d.get(key, default): succeeds only on a dict, any other
    receiver raises AttributeError. -/
def pyGet : PyVal → String → PyVal → Except PyErr PyVal
  | .dict kvs, k, d => .ok (lookupD kvs k d)
  | _, _, _ => .error .attributeError

/-- Python d.get(key, default) where the key itself is a dynamic value
    (used for prop.get(t)): an unhashable key raises TypeError, a
    hashable non-string key is simply absent from a JSON object. -/
def pyGetKey : PyVal → PyVal → PyVal → Except PyErr PyVal
  | .dict kvs, .str k, d => .ok (lookupD kvs k d)
  | .dict _, .list _, _ => .error .typeError
  | .dict _, .dict _, _ => .error .typeError
  | .dict _, _, d => .ok d
  | _, _, _ => .error .attributeError

/-- Python v[key] with a string key: KeyError when a dict misses the key,
    TypeError on any non-dict receiver. -/
def pySubscript : PyVal → String → Except PyErr PyVal
  | .dict kvs, k =>
    match kvs.find? (fun kv => kv.1 == k) with
    | some kv => .ok kv.2
    | Option.none => .error (.keyError k)
  | _, _ => .error .typeError

/-- Python iteration over a value: lists yield elements, strings yield
    one-character strings, dicts yield their keys, anything else raises
    TypeError. -/
def pyIter : PyVal → Except PyErr (List PyVal)
  | .list xs => .ok xs
  | .str s => .ok (s.data.map (fun c => .str (String.mk [c])))
  | .dict kvs => .ok (kvs.map (fun kv => .str kv.1))
  | _ => .error .typeError

/-- Escape of one character inside a Python string repr, for the
    printable fragment of the alphabet. -/
def pyCharEsc (q : Char) (c : Char) : String :=
  if c = '\\' then "\\\\"
  else if c = q then "\\" ++ String.mk [q]
  else if c = '\n' then "\\n"
  else if c = '\r' then "\\r"
  else if c = '\t' then "\\t"
  else String.mk [c]

/-- Python repr of a string: single quotes by default, double quotes when
    the string holds a single quote but no double quote. -/
def pyStrRepr (s : String) : String :=
  let sq : Char := Char.ofNat 39
  let q : Char := if s.data.contains sq && !(s.data.contains '"') then '"' else sq
  String.mk [q] ++ String.join (s.data.map (pyCharEsc q)) ++ String.mk [q]

mutual
/-- Python repr of a value. -/
def pyRepr : PyVal → String
  | .none => "None"
  | .bool true => "True"
  | .bool false => "False"
  | .int n => toString n
  | .str s => pyStrRepr s
  | .list xs => "[" ++ String.intercalate ", " (pyReprItems xs) ++ "]"
  | .dict kvs => "\x7b" ++ String.intercalate ", " (pyReprPairs kvs) ++ "\x7d"

/-- Helper of pyRepr: repr of the elements of a list. -/
def pyReprItems : List PyVal → List String
  | [] => []
  | x :: xs => pyRepr x :: pyReprItems xs

/-- Helper of pyRepr: repr of the bindings of a dict. -/
def pyReprPairs : List (String × PyVal) → List String
  | [] => []
  | (k, v) :: kvs => (pyStrRepr k ++ ": " ++ pyRepr v) :: pyReprPairs kvs
end

/-- Python str(v): strings pass through, everything else as repr
    (None, booleans, integers and containers agree with repr). -/
def pyStr : PyVal → String
  | .str s => s
  | v => pyRepr v

/-- Join-time check of Python str.join: every joined element must already
    be a string, otherwise TypeError. -/
def requireStr : PyVal → Except PyErr String
  | .str s => .ok s
  | _ => .error .typeError

/-- Sequencing of a fallible element conversion over a list, stopping at
    the first raised exception, as a Python generator inside join does. -/
def mapE (f : PyVal → Except PyErr String) : List PyVal → Except PyErr (List String)
  | [] => .ok []
  | x :: xs =>
    match f x with
    | .error e => .error e
    | .ok s =>
      match mapE f xs with
      | .error e => .error e
      | .ok l => .ok (s :: l)

/-- Python (v or []), the guard the source applies before iterating a
    possibly null payload. -/
def orEmptyList (v : PyVal) : PyVal :=
  if v.truthy then v else .list []

/-- One inline rich-text run: x.get("plain_text", "") which must be a
    string to be joined. -/
def richItem (x : PyVal) : Except PyErr String :=
  match pyGet x "plain_text" (.str "") with
  | .error e => .error e
  | .ok p => requireStr p

/-- rich_plain_text from the source: concatenation of the plain_text of
    each run of a title or rich_text payload. -/
def rich_plain_text (rich : PyVal) : Except PyErr String :=
  match pyIter (orEmptyList rich) with
  | .error e => .error e
  | .ok xs =>
    match mapE richItem xs with
    | .error e => .error e
    | .ok parts => .ok (String.join parts)

/-- One multi_select option: x["name"], which must be a string. -/
def msItem (x : PyVal) : Except PyErr String :=
  match pySubscript x "name" with
  | .error e => .error e
  | .ok nv => requireStr nv

/-- One people entry: p.get("name") or "", which must be a string. -/
def personItem (p : PyVal) : Except PyErr String :=
  match pyGet p "name" .none with
  | .error e => .error e
  | .ok nv => requireStr (if nv.truthy then nv else .str "")

/-- One relation entry: r.get("id", ""), which must be a string. -/
def relItem (r : PyVal) : Except PyErr String :=
  match pyGet r "id" (.str "") with
  | .error e => .error e
  | .ok nv => requireStr nv

/-- Test of the source pattern (t == "kind") for a dynamic tag against a
    string literal: only a string value can compare equal. -/
def isStrEq (t : PyVal) (k : String) : Bool :=
  match t with
  | .str s => s == k
  | _ => false

/-- Result wrapper lifting a string computation back into the dynamic
    result universe. -/
def mapStrVal (r : Except PyErr String) : Except PyErr PyVal :=
  match r with
  | .error e => .error e
  | .ok s => .ok (.str s)

/-- Per-kind body of notion_prop_to_str, after the type tag t proved
    truthy and the payload v was read from the property object.  The
    branch order and each branch mirror the source if-chain. -/
def propDispatch (t : PyVal) (v : PyVal) : Except PyErr PyVal :=
  if isStrEq t "title" then mapStrVal (rich_plain_text v)
  else if isStrEq t "rich_text" then mapStrVal (rich_plain_text v)
  else if isStrEq t "number" then
    .ok (.str (match v with | .none => "" | _ => pyStr v))
  else if isStrEq t "checkbox" then
    .ok (.str (if v.truthy then "TRUE" else "FALSE"))
  else if isStrEq t "select" then
    (if v.truthy then pySubscript v "name" else .ok (.str ""))
  else if isStrEq t "multi_select" then
    (match pyIter (orEmptyList v) with
     | .error e => .error e
     | .ok xs =>
       match mapE msItem xs with
       | .error e => .error e
       | .ok parts => .ok (.str (String.intercalate ", " parts)))
  else if isStrEq t "date" then
    (if v.truthy then pyGet v "start" (.str "") else .ok (.str ""))
  else if isStrEq t "email" || isStrEq t "phone_number" || isStrEq t "url" then
    .ok (if v.truthy then v else .str "")
  else if isStrEq t "people" then
    (match pyIter (orEmptyList v) with
     | .error e => .error e
     | .ok xs =>
       match mapE personItem xs with
       | .error e => .error e
       | .ok parts => .ok (.str (String.intercalate ", " parts)))
  else if isStrEq t "relation" then
    (match pyIter (orEmptyList v) with
     | .error e => .error e
     | .ok xs =>
       match mapE relItem xs with
       | .error e => .error e
       | .ok parts => .ok (.str (String.intercalate ", " parts)))
  else if isStrEq t "formula" then
    (match pyGet (if v.truthy then v else .dict []) "type" .none with
     | .error e => .error e
     | .ok ft =>
       if ft.truthy then
         match pyGetKey (if v.truthy then v else .dict []) ft .none with
         | .error e => .error e
         | .ok u => .ok (.str (pyStr (if u.truthy then u else .str "")))
       else .ok (.str ""))
  else if isStrEq t "status" then
    (if v.truthy then pySubscript v "name" else .ok (.str ""))
  else
    .ok (match v with | .none => .str "" | _ => .str (pyStr v))

/-- notion_prop_to_str from the source: convert one Notion property
    object to its display value, with Python exceptions surfaced as
    errors and the (dynamically typed) returned value kept raw. -/
def notion_prop_to_str (prop : PyVal) : Except PyErr PyVal :=
  match pyGet prop "type" .none with
  | .error e => .error e
  | .ok t =>
    if t.truthy then
      match pyGetKey prop t .none with
      | .error e => .error e
      | .ok v => propDispatch t v
    else .ok (.str "")

/-- Code points the Python regex class \s and str.strip treat as
    whitespace. -/
def pySpaceCodes : List Nat :=
  [0x09, 0x0a, 0x0b, 0x0c, 0x0d, 0x1c, 0x1d, 0x1e, 0x1f, 0x20,
   0x85, 0xa0, 0x1680, 0x2000, 0x2001, 0x2002, 0x2003, 0x2004, 0x2005,
   0x2006, 0x2007, 0x2008, 0x2009, 0x200a, 0x2028, 0x2029, 0x202f,
   0x205f, 0x3000]

/-- Membership in the Python whitespace class. -/
def isPySpace (c : Char) : Bool := pySpaceCodes.contains c.toNat

/-- Membership in the regex class \w, on the ASCII core of the modelled
    alphabet: letters, digits and the underscore. -/
def isWordChar (c : Char) : Bool := c.isAlphanum || c == '_'

/-- Characters kept by the first substitution of slugify: the complement
    of [^\w\- ]. -/
def slugAllowed (c : Char) : Bool := isWordChar c || c == '-' || c == ' '

/-- Python str.strip(): drop whitespace from both ends. -/
def pyStrip (s : String) : String :=
  String.mk (((s.data.dropWhile isPySpace).reverse.dropWhile isPySpace).reverse)

/-- Second substitution of slugify: every maximal run of \s characters
    becomes a single underscore.  The flag records whether the previous
    character belonged to a run. -/
def collapseWsAux : Bool → List Char → List Char
  | _, [] => []
  | prevSpace, c :: rest =>
    if isPySpace c then
      (if prevSpace then [] else ['_']) ++ collapseWsAux true rest
    else c :: collapseWsAux false rest

/-- String form of the whitespace-collapsing substitution. -/
def collapseWs (s : String) : String := String.mk (collapseWsAux false s.data)

/-- Processed form of an input inside slugify, before the final
    truncation and empty test: strip, drop disallowed characters,
    collapse whitespace runs. -/
def slugCore (s : String) : String :=
  collapseWs (String.mk ((pyStrip s).data.filter slugAllowed))

/-- slugify from the source: the processed form truncated to 120
    characters, or the literal "document" when the processed form is
    empty. -/
def slugify (s : String) : String :=
  if slugCore s = "" then "document" else String.mk ((slugCore s).data.take 120)

/-- Python str.items() view of a dynamic value: only a dict has items. -/
def pyItems : PyVal → Except PyErr (List (String × PyVal))
  | .dict kvs => .ok kvs
  | _ => .error .attributeError

/-- Loop body of row_to_placeholder_map: one placeholder entry per
    column, the key being the verbatim double-brace token of the column
    name and the value the normalized property. -/
def placeholderEntries : List (String × PyVal) → Except PyErr (List (String × PyVal))
  | [] => .ok []
  | cp :: rest =>
    match notion_prop_to_str cp.2 with
    | .error e => .error e
    | .ok v =>
      match placeholderEntries rest with
      | .error e => .error e
      | .ok l => .ok (("\x7b\x7b" ++ cp.1 ++ "\x7d\x7d", v) :: l)

/-- row_to_placeholder_map from the source. -/
def row_to_placeholder_map (page : PyVal) : Except PyErr (List (String × PyVal)) :=
  match pyGet page "properties" (.dict []) with
  | .error e => .error e
  | .ok props =>
    match pyItems props with
    | .error e => .error e
    | .ok kvs => placeholderEntries kvs

/-- Request of one Notion query page: the loop always sends page_size 100
    and includes start_cursor exactly when the current cursor is truthy. -/
structure NotionReq where
  page_size : Nat
  start_cursor : Option PyVal

/-- Response of one Notion query page, with the fields the loop reads. -/
structure NotionResp where
  status : Nat
  text : String
  results : List PyVal
  has_more : Bool
  next_cursor : PyVal

/-- Request constructed by the loop body for a given cursor value. -/
def mkReq (cursor : PyVal) : NotionReq :=
  ⟨100, if cursor.truthy then some cursor else Option.none⟩

/-- Pagination loop of fetch_all_notion_rows, against an abstract
    service.  The fuel argument is a modelling artifact bounding the
    number of iterations of the source while-True loop; exhausting it
    reports an error no real run can produce in finitely many pages. -/
def fetchLoop (svc : NotionReq → NotionResp) :
    Nat → PyVal → List PyVal → Except String (List PyVal)
  | 0, _, _ => .error "ERROR: pagination did not terminate"
  | Nat.succ fuel, cursor, acc =>
    let r := svc (mkReq cursor)
    if 400 ≤ r.status then
      .error ("ERROR: Notion API error " ++ toString r.status ++ ": " ++ r.text)
    else if r.has_more then fetchLoop svc fuel r.next_cursor (acc ++ r.results)
    else .ok (acc ++ r.results)

/-- fetch_all_notion_rows from the source: credential checks, then the
    cursor-following pagination loop starting from an absent cursor. -/
def fetch_all_notion_rows (token dbid : String) (svc : NotionReq → NotionResp)
    (fuel : Nat) : Except String (List PyVal) :=
  if token = "" then
    .error "ERROR: NOTION_TOKEN is missing (set GitHub secret NOTION_TOKEN)."
  else if dbid = "" then
    .error "ERROR: NOTION_DATABASE_ID is missing (set GitHub secret NOTION_DATABASE_ID)."
  else fetchLoop svc fuel PyVal.none []

/-- Modelled from the spec wording only in its name: the spec-level
    description of pagination, the concatenation of the results of every
    page reached by following next_cursor while has_more holds. -/
def pagesConcat (svc : NotionReq → NotionResp) : Nat → PyVal → List PyVal
  | 0, _ => []
  | Nat.succ n, cursor =>
    let r := svc (mkReq cursor)
    r.results ++ (if r.has_more then pagesConcat svc n r.next_cursor else [])

/-- Decision that the service, followed from the given cursor, reports a
    non-error status on every page and clears has_more within the given
    number of pages. -/
def stopsWithin (svc : NotionReq → NotionResp) : Nat → PyVal → Bool
  | 0, _ => false
  | Nat.succ n, cursor =>
    let r := svc (mkReq cursor)
    decide (r.status < 400) && (!r.has_more || stopsWithin svc n r.next_cursor)

/-- Fixed preference list of candidate column names for the output base
    name, from main. -/
def preferred_cols : List String := ["Invoice #", "Invoice", "Name", "Title", "ID"]

/-- Placeholder token of a column name: the column name wrapped verbatim
    in double braces. -/
def phToken (col : String) : String := "\x7b\x7b" ++ col ++ "\x7d\x7d"

/-- Value of a candidate column in a placeholder map, with the string
    default of the source repl.get(ph, ""). -/
def lookupPh (repl : List (String × PyVal)) (col : String) : PyVal :=
  lookupD repl (phToken col) (.str "")

/-- Python value.strip() on a dynamic value: only a string has strip. -/
def stripVal : PyVal → Except PyErr String
  | .str s => .ok (pyStrip s)
  | _ => .error .attributeError

/-- Candidate scan of main: the first preferred column whose stripped
    placeholder value is non-empty, if any. -/
def baseNameLoop (repl : List (String × PyVal)) :
    List String → Except PyErr (Option String)
  | [] => .ok Option.none
  | col :: rest =>
    match stripVal (lookupPh repl col) with
    | .error e => .error e
    | .ok s => if s = "" then baseNameLoop repl rest else .ok (some s)

/-- Base-name choice of main for the row at 1-based index i: the scan
    winner, or the positional fallback. -/
def chooseBaseName (repl : List (String × PyVal)) (i : Nat) : Except PyErr String :=
  match baseNameLoop repl preferred_cols with
  | .error e => .error e
  | .ok (some b) => .ok b
  | .ok Option.none => .ok ("row_" ++ toString i)

/-- String content of a value known to be a string (used only under that
    hypothesis). -/
def strOf : PyVal → String
  | .str s => s
  | _ => ""

/-- Decision that a value is a string. -/
def isStrVal : PyVal → Bool
  | .str _ => true
  | _ => false

/-- Modelled from the spec wording only in its name: the spec-level
    description of base-name selection, the trimmed value of the first
    preferred column whose trimmed value is non-blank, with the
    positional fallback row_i. -/
def baseNameSpec (repl : List (String × PyVal)) (i : Nat) : String :=
  match preferred_cols.find? (fun col => !(pyStrip (strOf (lookupPh repl col)) == "")) with
  | some col => pyStrip (strOf (lookupPh repl col))
  | Option.none => "row_" ++ toString i

/-- Externally visible action of one step of the per-row pipeline. -/
inductive Event where
  | printLine (msg : String)
  | copyDoc (title : String)
  | substitute (repl : List (String × PyVal))
  | exportPdf (path : String)
  | deleteDoc

/-- Per-row body of main: placeholder map, base name, slug, then the
    copy / substitute / export / optional delete / progress sequence,
    reported as the list of emitted events.  A raised Python exception
    aborts the row (and, in runRows, the whole run). -/
def processRow (toggle : Bool) (outDir : String) (n i : Nat) (page : PyVal) :
    Except PyErr (List Event) :=
  match row_to_placeholder_map page with
  | .error e => .error e
  | .ok repl =>
    match chooseBaseName repl i with
    | .error e => .error e
    | .ok base_name =>
      .ok ([Event.copyDoc ("PDF_" ++ slugify base_name),
            Event.substitute repl,
            Event.exportPdf (outDir ++ "/" ++ slugify base_name ++ ".pdf")]
           ++ (if toggle then [Event.deleteDoc] else [])
           ++ [Event.printLine ("[" ++ toString i ++ "/" ++ toString n ++ "] Saved: "
                 ++ slugify base_name ++ ".pdf")])

/-- Slug a row receives at index i: the projection of processRow that
    determines both the rendered-document title and the output path. -/
def rowSlug (i : Nat) (page : PyVal) : Except PyErr String :=
  match row_to_placeholder_map page with
  | .error e => .error e
  | .ok repl =>
    match chooseBaseName repl i with
    | .error e => .error e
    | .ok base_name => .ok (slugify base_name)

/-- Loop of main over the fetched rows, threading the 1-based index and
    concatenating the emitted events; an uncaught exception stops the
    run with the events already emitted by completed rows. -/
def runRows (toggle : Bool) (outDir : String) (n : Nat) :
    Nat → List PyVal → List Event × Option PyErr
  | _, [] => ([Event.printLine "Done."], Option.none)
  | i, page :: rest =>
    match processRow toggle outDir n i page with
    | .error e => ([], some e)
    | .ok evs =>
      match runRows toggle outDir n (i + 1) rest with
      | (evs2, r) => (evs ++ evs2, r)

/-- Outcome of a run: the events emitted, and the fatal message if the
    run aborted (Option.none on success). -/
def RunOutcome := List Event × Option String

/-- Rendering of an uncaught Python exception as the fatal message of an
    aborted run. -/
def pyErrMsg : PyErr → String
  | .keyError k => "KeyError: " ++ k
  | .attributeError => "AttributeError"
  | .typeError => "TypeError"

/-- main from the source, from the fetch on (the Google client setup
    that precedes it performs no document operation and is modelled as
    already succeeded): fetch all rows, abort when the set is empty,
    then process each row in order. -/
def mainRun (toggle : Bool) (outDir token dbid : String)
    (svc : NotionReq → NotionResp) (fuel : Nat) : List Event × Option String :=
  match fetch_all_notion_rows token dbid svc fuel with
  | .error e => ([], some e)
  | .ok rows =>
    match rows with
    | [] => ([], some "ERROR: No rows found in Notion database.")
    | _ =>
      match runRows toggle outDir rows.length 1 rows with
      | (evs, r) =>
        (Event.printLine ("Found " ++ toString rows.length ++ " rows. Output: " ++ outDir)
           :: evs,
         r.map pyErrMsg)

/-- First copied-document title among the events of a row. -/
def copyTitleOf (evs : List Event) : Option String :=
  evs.findSome? (fun e => match e with | .copyDoc t => some t | _ => Option.none)

/-- First export path among the events of a row. -/
def exportPathOf (evs : List Event) : Option String :=
  evs.findSome? (fun e => match e with | .exportPdf p => some p | _ => Option.none)

/-- Decision that an event is a document call (copy, substitute or
    export). -/
def isDocCall : Event → Bool
  | .copyDoc _ => true
  | .substitute _ => true
  | .exportPdf _ => true
  | _ => false

/-- Decision that a deletion occurs among the events of a row. -/
def hasDelete (evs : List Event) : Bool :=
  evs.any (fun e => match e with | .deleteDoc => true | _ => false)

/-- Python str.lower() on the ASCII core of the modelled alphabet. -/
def pyLower (s : String) : String := String.mk (s.data.map Char.toLower)

/-- Cleanup toggle of the source: the DELETE_INTERMEDIATE_DOCS
    environment value (default "true"), lowercased, tested for
    membership in the three accepted literals; the raw value is not
    stripped. -/
def parseDeleteToggle (env : Option String) : Bool :=
  ["1", "true", "yes"].contains (pyLower (env.getD "true"))

/-- Decision that a normalization result is a successfully returned
    string. -/
def okStr : Except PyErr PyVal → Bool
  | .ok (.str _) => true
  | _ => false

/-- Well-formed rich-text run: an object whose plain_text, when present,
    is a string. -/
def wfRichItem : PyVal → Bool
  | .dict kvs => isStrVal (lookupD kvs "plain_text" (.str ""))
  | _ => false

/-- Well-formed title or rich_text payload: null or a list of well-formed
    runs. -/
def wfRich : PyVal → Bool
  | .none => true
  | .list xs => xs.all wfRichItem
  | _ => false

/-- Object carrying a string under the key name. -/
def wfNamed : PyVal → Bool
  | .dict kvs =>
    (match kvs.find? (fun kv => kv.1 == "name") with
     | some kv => isStrVal kv.2
     | Option.none => false)
  | _ => false

/-- Well-formed select or status payload: null or a named object. -/
def wfOption : PyVal → Bool
  | .none => true
  | v => wfNamed v

/-- Well-formed multi_select payload: null or a list of named objects. -/
def wfMulti : PyVal → Bool
  | .none => true
  | .list xs => xs.all wfNamed
  | _ => false

/-- Well-formed date payload: null or an object whose start, when
    present, is a string. -/
def wfDateP : PyVal → Bool
  | .none => true
  | .dict kvs => isStrVal (lookupD kvs "start" (.str ""))
  | _ => false

/-- Well-formed email, phone_number or url payload: null or a string. -/
def wfStrPayload : PyVal → Bool
  | .none => true
  | .str _ => true
  | _ => false

/-- Well-formed people entry: an object whose name is a string, null or
    absent. -/
def wfPerson : PyVal → Bool
  | .dict kvs =>
    (match lookupD kvs "name" .none with
     | .str _ => true
     | .none => true
     | _ => false)
  | _ => false

/-- Well-formed people payload. -/
def wfPeopleP : PyVal → Bool
  | .none => true
  | .list xs => xs.all wfPerson
  | _ => false

/-- Well-formed relation entry: an object whose id, when present, is a
    string. -/
def wfRelEntry : PyVal → Bool
  | .dict kvs => isStrVal (lookupD kvs "id" (.str ""))
  | _ => false

/-- Well-formed relation payload. -/
def wfRelP : PyVal → Bool
  | .none => true
  | .list xs => xs.all wfRelEntry
  | _ => false

/-- Decision that a value may be used as a dict key (Python hashable). -/
def hashableVal : PyVal → Bool
  | .list _ => false
  | .dict _ => false
  | _ => true

/-- Well-formed formula payload: null or an object whose type tag is a
    hashable value. -/
def wfFormulaP : PyVal → Bool
  | .none => true
  | .dict kvs => hashableVal (lookupD kvs "type" .none)
  | _ => false

/-- Well-formed payload for a given string type tag, mirroring the
    branch structure of propDispatch.  Kinds whose branch is total and
    string-valued for every payload (number, checkbox, unrecognized
    string kinds) need no constraint. -/
def wfPayload (t : PyVal) (v : PyVal) : Bool :=
  if isStrEq t "title" then wfRich v
  else if isStrEq t "rich_text" then wfRich v
  else if isStrEq t "number" then true
  else if isStrEq t "checkbox" then true
  else if isStrEq t "select" then wfOption v
  else if isStrEq t "multi_select" then wfMulti v
  else if isStrEq t "date" then wfDateP v
  else if isStrEq t "email" || isStrEq t "phone_number" || isStrEq t "url" then wfStrPayload v
  else if isStrEq t "people" then wfPeopleP v
  else if isStrEq t "relation" then wfRelP v
  else if isStrEq t "formula" then wfFormulaP v
  else if isStrEq t "status" then wfOption v
  else true

/-- Well-formed Notion property: an object whose type tag is not a
    container, and whose payload fits the tag. -/
def wfProp : PyVal → Bool
  | .dict kvs =>
    (match lookupD kvs "type" .none with
     | .str t => wfPayload (.str t) (lookupD kvs t .none)
     | .list _ => false
     | .dict _ => false
     | _ => true)
  | _ => false

/-- Property object of a given kind with an explicit null payload. -/
def mkNullProp (t : String) : PyVal := .dict [("type", .str t), (t, .none)]

/-- Supported property kinds other than checkbox, from the source
    if-chain. -/
def nonCheckboxKinds : List String :=
  ["title", "rich_text", "number", "select", "multi_select", "date",
   "email", "phone_number", "url", "people", "relation", "formula", "status"]

/-- Title property whose single run reads Acme. -/
def titleAcme : PyVal :=
  .dict [("type", .str "title"), ("title", .list [.dict [("plain_text", .str "Acme")]])]

/-- Title property whose single run reads Acme with surrounding
    whitespace. -/
def titleAcmePadded : PyVal :=
  .dict [("type", .str "title"), ("title", .list [.dict [("plain_text", .str " Acme ")]])]

/-- Number property holding 42. -/
def number42 : PyVal := .dict [("type", .str "number"), ("number", .int 42)]

/-- Column set of the placeholder-map example of the spec. -/
def acmeKvs : List (String × PyVal) := [("Name", titleAcme), ("Total", number42)]

/-- Normalized value of each column of acmeKvs. -/
def acmeG (cp : String × PyVal) : PyVal :=
  if cp.1 == "Name" then .str "Acme" else .str "42"

/-- Row whose only columns are Name (title Acme) and Total (number 42). -/
def pageAcme : PyVal := .dict [("properties", .dict acmeKvs)]

/-- Row whose only column is Name with padded title text. -/
def pageAcmePadded : PyVal :=
  .dict [("properties", .dict [("Name", titleAcmePadded)])]

/-- Placeholder map with a blank first candidate and a padded second
    candidate, for the base-name selection witness. -/
def replBlankThenX : List (String × PyVal) :=
  [("\x7b\x7bInvoice #\x7d\x7d", .str "   "), ("\x7b\x7bName\x7d\x7d", .str " X ")]

/-- Service answering three pages: has_more true, true, false. -/
def svc3 : NotionReq → NotionResp := fun rq =>
  match rq.start_cursor with
  | Option.none => ⟨200, "", [.str "r1"], true, .str "c1"⟩
  | some (.str "c1") => ⟨200, "", [.str "r2"], true, .str "c2"⟩
  | some (.str "c2") => ⟨200, "", [.str "r3"], false, .none⟩
  | _ => ⟨500, "bad cursor", [], false, .none⟩

/-- Service answering a single empty page. -/
def svcEmpty : NotionReq → NotionResp := fun _ => ⟨200, "", [], false, .none⟩

/-- Deletion flag of a row outcome: whether a successful row emitted a
    delete event. -/
def deleteFlag (r : Except PyErr (List Event)) : Option Bool :=
  match r with
  | .ok evs => some (hasDelete evs)
  | .error _ => Option.none

/-
  THEOREMS.  General helper lemmas come first, then one theorem (with
  counterexample and witness where applicable) per claim of the
  specification review.
-/

/-- C1 (counterexample): the claim that a formula property normalizes its
    computed sub-value per that sub-value own dynamic kind fails: a
    formula whose computed sub-value is the number 0 normalizes to the
    empty string, while the number kind itself normalizes 0 to the
    string 0.  The source applies str(value or "") to the raw sub-value
    instead of dispatching on its kind, so any falsy sub-value (0, false,
    the empty string) collapses to the empty string. -/
theorem c1_formula_subvalue_not_kind_dispatched :
    notion_prop_to_str (.dict [("type", .str "formula"),
      ("formula", .dict [("type", .str "number"), ("number", .int 0)])]) = .ok (.str "") ∧
    notion_prop_to_str (.dict [("type", .str "number"), ("number", .int 0)]) = .ok (.str "0") ∧
    ("" : String) ≠ "0" :=
  ⟨rfl, rfl, by decide⟩

/-- C2 (counterexample): the claim that normalize never raises, even on a
    select payload object lacking an option name, fails: such a payload
    raises KeyError (modelled as an error result) because the source
    subscripts v["name"] without a guard. -/
theorem c2_select_missing_name_raises :
    notion_prop_to_str (.dict [("type", .str "select"),
      ("select", .dict [("id", .str "x")])]) = .error (.keyError "name") :=
  rfl

/-- C3 (counterexample): the claim that every supported kind, including
    checkbox, normalizes an absent or null payload to the empty string
    fails at checkbox: a null checkbox payload normalizes to FALSE,
    because the source returns "TRUE" if v else "FALSE" and null is
    falsy. -/
theorem c3_checkbox_null_is_false :
    notion_prop_to_str (mkNullProp "checkbox") = .ok (.str "FALSE") ∧
    ("FALSE" : String) ≠ "" :=
  ⟨rfl, by decide⟩

/-- C3 (amended): every supported kind except checkbox normalizes a null
    payload to the empty string; a null checkbox payload normalizes to
    FALSE. -/
theorem c3_null_payload_normalization :
    notion_prop_to_str (mkNullProp "title") = .ok (.str "") ∧
    notion_prop_to_str (mkNullProp "rich_text") = .ok (.str "") ∧
    notion_prop_to_str (mkNullProp "number") = .ok (.str "") ∧
    notion_prop_to_str (mkNullProp "select") = .ok (.str "") ∧
    notion_prop_to_str (mkNullProp "multi_select") = .ok (.str "") ∧
    notion_prop_to_str (mkNullProp "date") = .ok (.str "") ∧
    notion_prop_to_str (mkNullProp "email") = .ok (.str "") ∧
    notion_prop_to_str (mkNullProp "phone_number") = .ok (.str "") ∧
    notion_prop_to_str (mkNullProp "url") = .ok (.str "") ∧
    notion_prop_to_str (mkNullProp "people") = .ok (.str "") ∧
    notion_prop_to_str (mkNullProp "relation") = .ok (.str "") ∧
    notion_prop_to_str (mkNullProp "formula") = .ok (.str "") ∧
    notion_prop_to_str (mkNullProp "status") = .ok (.str "") ∧
    notion_prop_to_str (mkNullProp "checkbox") = .ok (.str "FALSE") :=
  ⟨rfl, rfl, rfl, rfl, rfl, rfl, rfl, rfl, rfl, rfl, rfl, rfl, rfl, rfl⟩

/-- C4 (counterexample): the claim that any input longer than 120
    characters yields a slug of exactly 120 characters fails: an input of
    121 whitespace characters strips to the empty processed form, so
    slugify falls back to the 8-character default literal. -/
theorem c4_long_blank_input_not_truncated_to_120 :
    slugify (String.mk (List.replicate 121 ' ')) = "document" ∧
    (String.mk (List.replicate 121 ' ')).length = 121 ∧
    ("document" : String).length ≠ 120 :=
  ⟨by decide, by decide, by decide⟩

/-- C10: the cleanup toggle is enabled exactly when the lowercased
    environment value is one of 1, true, yes; an unset variable defaults
    to enabled; the value is not trimmed, so a value with surrounding
    whitespace, or a synonym such as on, silently disables cleanup; and
    the per-row loop emits a delete event exactly when the toggle is
    enabled. -/
theorem c10_delete_toggle_spec :
    parseDeleteToggle Option.none = true ∧
    (∀ s : String, parseDeleteToggle (some s) = true ↔ pyLower s ∈ ["1", "true", "yes"]) ∧
    parseDeleteToggle (some "TRUE") = true ∧
    parseDeleteToggle (some " true") = false ∧
    parseDeleteToggle (some "on") = false ∧
    deleteFlag (processRow false "out_pdfs" 1 1 pageAcme) = some false ∧
    deleteFlag (processRow true "out_pdfs" 1 1 pageAcme) = some true := by
  refine ⟨rfl, ?_, rfl, by decide, by decide, rfl, rfl⟩
  intro s
  simp [parseDeleteToggle]

/-- Helper: a string with an empty character list is the empty string. -/
theorem str_eq_empty_of_data (s : String) (h : s.data = []) : s = "" := by
  cases s
  simp_all

/-- Helper: a character of the whitespace-collapsed list is either the
    inserted underscore or a non-whitespace character of the original
    list. -/
theorem mem_collapseWsAux (c : Char) :
    ∀ (l : List Char) (b : Bool), c ∈ collapseWsAux b l →
      c = '_' ∨ (c ∈ l ∧ isPySpace c = false) := by
  intro l
  induction l with
  | nil => intro b h; simp [collapseWsAux] at h
  | cons x xs ih =>
    intro b h
    by_cases hx : isPySpace x = true
    · rw [collapseWsAux, if_pos hx] at h
      rcases List.mem_append.mp h with h1 | h2
      · left
        cases b <;> simp_all
      · rcases ih true h2 with h3 | ⟨h4, h5⟩
        · exact Or.inl h3
        · exact Or.inr ⟨List.mem_cons_of_mem _ h4, h5⟩
    · rw [collapseWsAux, if_neg hx] at h
      rcases List.mem_cons.mp h with rfl | h2
      · exact Or.inr ⟨List.mem_cons_self _ _, by simpa using hx⟩
      · rcases ih false h2 with h3 | ⟨h4, h5⟩
        · exact Or.inl h3
        · exact Or.inr ⟨List.mem_cons_of_mem _ h4, h5⟩

/-- C4 (amended): slugify strips surrounding whitespace, removes every
    character outside the allow-set, collapses internal whitespace runs
    to single underscores, truncates the processed result to at most 120
    characters (an input whose processed form reaches 120 characters
    yields exactly 120), and returns the default literal when the
    processed result is empty — so the output is always non-empty, at
    most 120 characters, and made only of word characters, hyphens and
    underscores.  The original stronger claim, that any input longer
    than 120 characters yields exactly 120, is false (see the
    counterexample): only the processed form is truncated. -/
theorem c4_slugify_spec :
    (∀ s : String, (slugify s).length ≤ 120) ∧
    (∀ s : String, slugify s ≠ "") ∧
    (∀ s : String, ∀ c ∈ (slugify s).data,
      isWordChar c = true ∨ c = '-' ∨ c = '_') ∧
    (∀ s : String, 120 ≤ (slugCore s).length → (slugify s).length = 120) ∧
    (∀ s : String, slugCore s = "" → slugify s = "document") := by
  refine ⟨?_, ?_, ?_, ?_, ?_⟩
  · intro s
    by_cases h : slugCore s = ""
    · rw [slugify, if_pos h]
      decide
    · rw [slugify, if_neg h]
      have : (String.mk ((slugCore s).data.take 120)).length
          = ((slugCore s).data.take 120).length := rfl
      rw [this, List.length_take]
      omega
  · intro s
    by_cases h : slugCore s = ""
    · simp [slugify, h]
    · rw [slugify, if_neg h]
      intro hcontra
      apply h
      have hd : (slugCore s).data.take 120 = [] := by
        have := congrArg String.data hcontra
        simpa using this
      have hnil : (slugCore s).data = [] := by
        cases hl : (slugCore s).data with
        | nil => rfl
        | cons a as => rw [hl] at hd; simp at hd
      exact str_eq_empty_of_data _ hnil
  · intro s c hc
    by_cases h : slugCore s = ""
    · rw [slugify, if_pos h] at hc
      have hd : ("document" : String).data = ['d', 'o', 'c', 'u', 'm', 'e', 'n', 't'] := rfl
      rw [hd] at hc
      fin_cases hc <;> decide
    · rw [slugify, if_neg h] at hc
      have hc2 : c ∈ (slugCore s).data.take 120 := hc
      have hc3 : c ∈ (slugCore s).data := List.take_subset _ _ hc2
      have hc4 : c ∈ collapseWsAux false ((pyStrip s).data.filter slugAllowed) := hc3
      rcases mem_collapseWsAux c _ false hc4 with h1 | ⟨h2, h3⟩
      · exact Or.inr (Or.inr h1)
      · have hall : slugAllowed c = true := (List.mem_filter.mp h2).2
        simp only [slugAllowed, Bool.or_eq_true, beq_iff_eq] at hall
        rcases hall with (h4 | h4) | h4
        · exact Or.inl h4
        · exact Or.inr (Or.inl h4)
        · rw [h4] at h3
          exact absurd h3 (by decide)
  · intro s h120
    have hne : slugCore s ≠ "" := by
      intro h0
      rw [h0] at h120
      simp [String.length] at h120
    rw [slugify, if_neg hne]
    have h1 : (String.mk ((slugCore s).data.take 120)).length
        = ((slugCore s).data.take 120).length := rfl
    have h2 : (slugCore s).length = (slugCore s).data.length := rfl
    rw [h1, List.length_take]
    omega
  · intro s h
    rw [slugify, if_pos h]

set_option maxRecDepth 4000 in
/-- C4 (witness): a 130-character all-word input yields exactly 120
    characters, and an all-disallowed input falls back to the default
    literal. -/
theorem c4_slugify_spec_witness :
    (slugify (String.mk (List.replicate 130 'a'))).length = 120 ∧
    slugify "!!!" = "document" :=
  ⟨c4_slugify_spec.2.2.2.1 _ (by decide), c4_slugify_spec.2.2.2.2 "!!!" (by decide)⟩

/-- Helper: a value the string decision accepts is a string. -/
theorem isStrVal_exists (v : PyVal) (h : isStrVal v = true) : ∃ s, v = .str s := by
  cases v <;> simp [isStrVal] at h ⊢

/-- Helper: the candidate scan returns the trimmed value of the first
    candidate whose trimmed value is non-blank, provided every candidate
    value in the map is a string. -/
theorem baseNameLoop_spec (repl : List (String × PyVal)) :
    ∀ cols : List String, (∀ col ∈ cols, isStrVal (lookupPh repl col) = true) →
    baseNameLoop repl cols =
      .ok ((cols.find? (fun col => !(pyStrip (strOf (lookupPh repl col)) == ""))).map
        (fun col => pyStrip (strOf (lookupPh repl col)))) := by
  intro cols
  induction cols with
  | nil => intro _; rfl
  | cons col rest ih =>
    intro h
    obtain ⟨s, hv⟩ := isStrVal_exists _ (h col (List.mem_cons_self _ _))
    have ihr := ih (fun c hc => h c (List.mem_cons_of_mem _ hc))
    by_cases hs : pyStrip s = ""
    · simp [baseNameLoop, List.find?, hv, stripVal, strOf, hs, ihr]
    · have hb : (pyStrip s == "") = false := beq_eq_false_iff_ne.mpr hs
      simp [baseNameLoop, List.find?, hv, stripVal, strOf, hs, hb]

/-- C5: for every placeholder map whose candidate values are strings and
    every 1-based index i, the chosen base name is the trimmed value of
    the first candidate of the fixed preference list (Invoice #, Invoice,
    Name, Title, ID) whose value is present and non-blank after trimming
    — blank or whitespace-only candidates are skipped — and the
    positional fallback row_i is chosen when no candidate matches. -/
theorem c5_base_name_selection (repl : List (String × PyVal)) (i : Nat)
    (h : ∀ col ∈ preferred_cols, isStrVal (lookupPh repl col) = true) :
    chooseBaseName repl i = .ok (baseNameSpec repl i) := by
  rw [chooseBaseName, baseNameSpec, baseNameLoop_spec repl preferred_cols h]
  cases preferred_cols.find? (fun col => !(pyStrip (strOf (lookupPh repl col)) == "")) <;> simp

/-- C5 (witness): a blank first candidate is skipped in favour of the
    trimmed second candidate, and an empty map falls back to the
    positional name. -/
theorem c5_base_name_selection_witness :
    chooseBaseName replBlankThenX 3 = .ok "X" ∧ chooseBaseName [] 7 = .ok "row_7" :=
  ⟨(c5_base_name_selection replBlankThenX 3 (by decide)).trans (by rfl),
   (c5_base_name_selection [] 7 (by decide)).trans (by rfl)⟩

/-- C1 (amended): for a formula property whose payload carries a type
    tag ft and a computed sub-value u, normalize returns the Python
    string form of the raw sub-value when the sub-value is truthy and
    the empty string when it is falsy — a best-effort stringification,
    not a dispatch on the sub-value own kind. -/
theorem c1_formula_stringifies_raw_subvalue (ft : String) (u : PyVal)
    (h1 : ft ≠ "") (h2 : ft ≠ "type") :
    notion_prop_to_str (.dict [("type", .str "formula"),
      ("formula", .dict [("type", .str ft), (ft, u)])]) =
    .ok (.str (pyStr (if u.truthy then u else .str ""))) := by
  have hb1 : (("type" : String) == ft) = false := by
    rw [beq_eq_false_iff_ne]
    exact Ne.symm h2
  have hb2 : ((ft : String) == ft) = true := beq_self_eq_true ft
  have ht : (PyVal.str ft).truthy = true := by simp [PyVal.truthy, h1]
  simp [notion_prop_to_str, pyGet, pyGetKey, lookupD, List.find?, propDispatch,
    isStrEq, PyVal.truthy, List.isEmpty, hb1, hb2, h1]

/-- C1 (witness): a formula computing the boolean true stringifies to
    True — the raw Python string form, which also differs from the TRUE
    a checkbox would produce. -/
theorem c1_formula_stringifies_raw_subvalue_witness :
    notion_prop_to_str (.dict [("type", .str "formula"),
      ("formula", .dict [("type", .str "boolean"), ("boolean", .bool true)])]) =
    .ok (.str "True") :=
  (c1_formula_stringifies_raw_subvalue "boolean" (.bool true) (by decide) (by decide)).trans
    (by rfl)

/-- Helper: when the service chain terminates without an error status,
    the pagination loop returns the accumulator followed by the
    concatenation of every remaining page. -/
theorem fetchLoop_spec (svc : NotionReq → NotionResp) :
    ∀ (fuel : Nat) (cursor : PyVal) (acc : List PyVal),
      stopsWithin svc fuel cursor = true →
      fetchLoop svc fuel cursor acc = .ok (acc ++ pagesConcat svc fuel cursor) := by
  intro fuel
  induction fuel with
  | zero => intro c a h; simp [stopsWithin] at h
  | succ n ih =>
    intro cursor acc h
    simp only [stopsWithin] at h
    rw [Bool.and_eq_true] at h
    obtain ⟨h1, h2⟩ := h
    have hst : ¬ 400 ≤ (svc (mkReq cursor)).status := by
      have h1' := of_decide_eq_true h1
      omega
    cases hm : (svc (mkReq cursor)).has_more with
    | false => simp [fetchLoop, pagesConcat, hst, hm]
    | true =>
      rw [hm] at h2
      simp only [Bool.not_true, Bool.false_or] at h2
      simp [fetchLoop, pagesConcat, hst, hm, ih _ _ h2]

/-- C6: fetch_all_notion_rows performs cursor-based pagination — each
    request carries page size 100 and the cursor of the previous
    response (absent initially and when falsy), another page is
    requested exactly while has_more holds — and, whenever the chain of
    pages terminates without an error status, it returns the
    concatenation of every page result in service order, with no dedup,
    re-sort or filtering. -/
theorem c6_fetch_all_paginates (svc : NotionReq → NotionResp) (fuel : Nat)
    (token dbid : String) (h1 : token ≠ "") (h2 : dbid ≠ "")
    (h3 : stopsWithin svc fuel PyVal.none = true) :
    fetch_all_notion_rows token dbid svc fuel = .ok (pagesConcat svc fuel PyVal.none) ∧
    ∀ c : PyVal, (mkReq c).page_size = 100 := by
  refine ⟨?_, fun c => rfl⟩
  rw [fetch_all_notion_rows, if_neg h1, if_neg h2]
  simpa using fetchLoop_spec svc fuel PyVal.none [] h3

/-- C6 (witness): a three-page service (has_more true, true, false)
    yields the three page results concatenated in order, stopping after
    the third page. -/
theorem c6_fetch_all_paginates_witness :
    fetch_all_notion_rows "tok" "db" svc3 3 = .ok [.str "r1", .str "r2", .str "r3"] :=
  ((c6_fetch_all_paginates svc3 3 "tok" "db" (by decide) (by decide) (by rfl)).1).trans
    (by rfl)

/-- C7: when the fetched row set is empty the run aborts with the fatal
    no-rows message between fetching and the per-row loop: the event
    trace is empty, so no document copy, substitution or export call was
    performed. -/
theorem c7_empty_fetch_aborts (toggle : Bool) (outDir token dbid : String)
    (svc : NotionReq → NotionResp) (fuel : Nat)
    (h : fetch_all_notion_rows token dbid svc fuel = .ok []) :
    mainRun toggle outDir token dbid svc fuel =
      ([], some "ERROR: No rows found in Notion database.") := by
  simp [mainRun, h]

/-- C7 (witness): a service with one empty page makes the run abort with
    the no-rows error and an empty event trace. -/
theorem c7_empty_fetch_aborts_witness :
    mainRun true "out_pdfs" "tok" "db" svcEmpty 1 =
      ([], some "ERROR: No rows found in Notion database.") :=
  c7_empty_fetch_aborts true "out_pdfs" "tok" "db" svcEmpty 1 (by rfl)

/-- Helper: the placeholder-entry loop maps each column to its verbatim
    double-brace token and normalized value, in column order. -/
theorem placeholderEntries_spec :
    ∀ (kvs : List (String × PyVal)) (g : String × PyVal → PyVal),
      (∀ cp ∈ kvs, notion_prop_to_str cp.2 = .ok (g cp)) →
      placeholderEntries kvs =
        .ok (kvs.map (fun cp => ("\x7b\x7b" ++ cp.1 ++ "\x7d\x7d", g cp))) := by
  intro kvs g
  induction kvs with
  | nil => intro _; rfl
  | cons cp rest ih =>
    intro h
    have h1 := h cp (List.mem_cons_self _ _)
    have ihr := ih (fun x hx => h x (List.mem_cons_of_mem _ hx))
    simp [placeholderEntries, h1, ihr]

/-- C8: for every row whose properties normalize successfully, the
    placeholder map has exactly one entry per column, in column order:
    the key is the double-brace token built verbatim (case-sensitively,
    with no escaping) from the column name and the value is the
    normalized property. -/
theorem c8_placeholder_map_exact (kvs : List (String × PyVal)) (g : String × PyVal → PyVal)
    (h : ∀ cp ∈ kvs, notion_prop_to_str cp.2 = .ok (g cp)) :
    row_to_placeholder_map (.dict [("properties", .dict kvs)]) =
      .ok (kvs.map (fun cp => ("\x7b\x7b" ++ cp.1 ++ "\x7d\x7d", g cp))) := by
  have hr : row_to_placeholder_map (.dict [("properties", .dict kvs)])
      = placeholderEntries kvs := rfl
  rw [hr]
  exact placeholderEntries_spec kvs g h

/-- C8 (witness): the row with columns Name (title Acme) and Total
    (number 42) yields exactly the two expected placeholder entries. -/
theorem c8_placeholder_map_exact_witness :
    row_to_placeholder_map pageAcme =
      .ok [("\x7b\x7bName\x7d\x7d", .str "Acme"), ("\x7b\x7bTotal\x7d\x7d", .str "42")] := by
  have h := c8_placeholder_map_exact acmeKvs acmeG
    (by intro cp hcp; simp [acmeKvs] at hcp; rcases hcp with rfl | rfl <;> rfl)
  exact h.trans (by rfl)

/-- Helper: a row whose slug computation succeeds is processed
    successfully, its rendered-document title is the fixed prefix plus
    the slug, and its output path is the output directory plus the slug
    plus the pdf extension — both functions of the slug alone. -/
theorem processRow_outputs (toggle : Bool) (outDir : String) (n i : Nat) (p : PyVal)
    (s : String) (h : rowSlug i p = .ok s) :
    ∃ evs, processRow toggle outDir n i p = .ok evs ∧
      copyTitleOf evs = some ("PDF_" ++ s) ∧
      exportPathOf evs = some (outDir ++ "/" ++ s ++ ".pdf") := by
  cases hm : row_to_placeholder_map p with
  | error e => simp [rowSlug, hm] at h
  | ok repl =>
    cases hc : chooseBaseName repl i with
    | error e => simp [rowSlug, hm, hc] at h
    | ok b =>
      simp only [rowSlug, hm, hc, Except.ok.injEq] at h
      subst h
      refine ⟨[Event.copyDoc ("PDF_" ++ slugify b), Event.substitute repl,
        Event.exportPdf (outDir ++ "/" ++ slugify b ++ ".pdf")]
        ++ (if toggle then [Event.deleteDoc] else [])
        ++ [Event.printLine ("[" ++ toString i ++ "/" ++ toString n ++ "] Saved: "
             ++ slugify b ++ ".pdf")], ?_, ?_, ?_⟩
      · simp [processRow, hm, hc]
      · simp [copyTitleOf, List.findSome?, List.cons_append, List.nil_append]
      · simp [exportPathOf, List.findSome?, List.cons_append, List.nil_append]

/-- C9: for any two processed rows, at any indices and with either
    cleanup setting, whose derived slugs are equal, the rendered-document
    titles are identical and the output paths are identical — both are
    functions of the slug alone (directory slash slug dot pdf, and the
    fixed prefix plus the slug), so equal slugs silently share one
    output path and one title. -/
theorem c9_output_depends_only_on_slug (toggle toggle' : Bool) (outDir : String)
    (n n' i i' : Nat) (p p' : PyVal) (s : String)
    (h : rowSlug i p = .ok s) (h' : rowSlug i' p' = .ok s) :
    ∃ evs evs',
      processRow toggle outDir n i p = .ok evs ∧
      processRow toggle' outDir n' i' p' = .ok evs' ∧
      copyTitleOf evs = some ("PDF_" ++ s) ∧
      copyTitleOf evs' = some ("PDF_" ++ s) ∧
      exportPathOf evs = some (outDir ++ "/" ++ s ++ ".pdf") ∧
      exportPathOf evs' = some (outDir ++ "/" ++ s ++ ".pdf") := by
  obtain ⟨evs, he, hct, hxp⟩ := processRow_outputs toggle outDir n i p s h
  obtain ⟨evs', he', hct', hxp'⟩ := processRow_outputs toggle' outDir n' i' p' s h'
  exact ⟨evs, evs', he, he', hct, hct', hxp, hxp'⟩

/-- C9 (witness): two rows at indices 1 and 2 whose slugs both derive to
    Acme (one via padded title text) receive the identical title and the
    identical output path. -/
theorem c9_output_depends_only_on_slug_witness :
    ∃ evs evs',
      processRow true "out_pdfs" 2 1 pageAcme = .ok evs ∧
      processRow false "out_pdfs" 2 2 pageAcmePadded = .ok evs' ∧
      copyTitleOf evs = some ("PDF_" ++ "Acme") ∧
      copyTitleOf evs' = some ("PDF_" ++ "Acme") ∧
      exportPathOf evs = some ("out_pdfs" ++ "/" ++ "Acme" ++ ".pdf") ∧
      exportPathOf evs' = some ("out_pdfs" ++ "/" ++ "Acme" ++ ".pdf") :=
  c9_output_depends_only_on_slug true false "out_pdfs" 2 2 1 2 pageAcme pageAcmePadded "Acme"
    (by rfl) (by rfl)

/-- Helper: a result the okStr decision accepts is a returned string. -/
theorem okStr_exists (r : Except PyErr PyVal) (h : okStr r = true) :
    ∃ s, r = .ok (.str s) := by
  cases r with
  | error e => simp [okStr] at h
  | ok v => cases v <;> simp [okStr] at h ⊢

/-- Helper: a pointwise successful conversion makes the sequenced list
    conversion successful. -/
theorem mapE_ok {f : PyVal → Except PyErr String} {w : PyVal → Bool}
    (hf : ∀ x, w x = true → ∃ s, f x = .ok s) :
    ∀ xs : List PyVal, xs.all w = true → ∃ l, mapE f xs = .ok l := by
  intro xs
  induction xs with
  | nil => intro _; exact ⟨[], rfl⟩
  | cons x rest ih =>
    intro h
    rw [List.all_cons, Bool.and_eq_true] at h
    obtain ⟨s, hs⟩ := hf x h.1
    obtain ⟨l, hl⟩ := ih h.2
    exact ⟨s :: l, by simp [mapE, hs, hl]⟩

/-- Helper: a well-formed rich-text run converts successfully. -/
theorem richItem_ok : ∀ x, wfRichItem x = true → ∃ s, richItem x = .ok s := by
  intro x h
  cases x with
  | dict kvs =>
    simp only [wfRichItem] at h
    obtain ⟨s, hs⟩ := isStrVal_exists _ h
    exact ⟨s, by simp [richItem, pyGet, hs, requireStr]⟩
  | none => simp [wfRichItem] at h
  | bool b => simp [wfRichItem] at h
  | int n => simp [wfRichItem] at h
  | str s => simp [wfRichItem] at h
  | list l => simp [wfRichItem] at h

/-- Helper: a well-formed title or rich_text payload converts
    successfully. -/
theorem rich_plain_text_ok : ∀ v, wfRich v = true → ∃ s, rich_plain_text v = .ok s := by
  intro v h
  cases v with
  | none => exact ⟨"", rfl⟩
  | list xs =>
    simp only [wfRich] at h
    cases xs with
    | nil => exact ⟨"", rfl⟩
    | cons a as =>
      obtain ⟨l, hl⟩ := mapE_ok richItem_ok (a :: as) h
      exact ⟨String.join l, by simp [rich_plain_text, orEmptyList, PyVal.truthy, pyIter, hl]⟩
  | bool b => simp [wfRich] at h
  | int n => simp [wfRich] at h
  | str s => simp [wfRich] at h
  | dict kvs => simp [wfRich] at h

/-- Helper: a named object subscripts to a string under the key name. -/
theorem named_ok : ∀ v, wfNamed v = true → ∃ s, pySubscript v "name" = .ok (.str s) := by
  intro v h
  cases v with
  | none => simp [wfNamed] at h
  | bool b => simp [wfNamed] at h
  | int n => simp [wfNamed] at h
  | str s => simp [wfNamed] at h
  | list l => simp [wfNamed] at h
  | dict kvs =>
    simp only [wfNamed] at h
    cases hf : kvs.find? (fun kv => kv.1 == "name") with
    | none => rw [hf] at h; simp at h
    | some kv =>
      rw [hf] at h
      obtain ⟨s, hs⟩ := isStrVal_exists _ h
      exact ⟨s, by simp [pySubscript, hf, hs]⟩

/-- Helper: a named object yields a string multi_select option. -/
theorem msItem_ok : ∀ x, wfNamed x = true → ∃ s, msItem x = .ok s := by
  intro x h
  obtain ⟨s, hs⟩ := named_ok x h
  exact ⟨s, by simp [msItem, hs, requireStr]⟩

/-- Helper: a well-formed people entry yields a string display name. -/
theorem personItem_ok : ∀ x, wfPerson x = true → ∃ s, personItem x = .ok s := by
  intro x h
  cases x with
  | none => simp [wfPerson] at h
  | bool b => simp [wfPerson] at h
  | int n => simp [wfPerson] at h
  | str s => simp [wfPerson] at h
  | list l => simp [wfPerson] at h
  | dict kvs =>
    simp only [wfPerson] at h
    cases hn : lookupD kvs "name" .none with
    | str s =>
      by_cases hs : s = ""
      · exact ⟨"", by simp [personItem, pyGet, hn, PyVal.truthy, hs, requireStr]⟩
      · exact ⟨s, by simp [personItem, pyGet, hn, PyVal.truthy, hs, requireStr]⟩
    | none => exact ⟨"", by simp [personItem, pyGet, hn, PyVal.truthy, requireStr]⟩
    | bool b => rw [hn] at h; simp at h
    | int n => rw [hn] at h; simp at h
    | list l => rw [hn] at h; simp at h
    | dict d => rw [hn] at h; simp at h

/-- Helper: a well-formed relation entry yields a string id. -/
theorem relItem_ok : ∀ x, wfRelEntry x = true → ∃ s, relItem x = .ok s := by
  intro x h
  cases x with
  | dict kvs =>
    simp only [wfRelEntry] at h
    obtain ⟨s, hs⟩ := isStrVal_exists _ h
    exact ⟨s, by simp [relItem, pyGet, hs, requireStr]⟩
  | none => simp [wfRelEntry] at h
  | bool b => simp [wfRelEntry] at h
  | int n => simp [wfRelEntry] at h
  | str s => simp [wfRelEntry] at h
  | list l => simp [wfRelEntry] at h

/-- Helper: the title and rich_text branch returns a string on a
    well-formed payload. -/
theorem richBranch_ok (v : PyVal) (h : wfRich v = true) :
    okStr (mapStrVal (rich_plain_text v)) = true := by
  obtain ⟨s, hs⟩ := rich_plain_text_ok v h
  simp [mapStrVal, hs, okStr]

/-- Helper: the select and status branch returns a string on a
    well-formed payload. -/
theorem selectBranch_ok (v : PyVal) (h : wfOption v = true) :
    okStr (if v.truthy then pySubscript v "name" else .ok (.str "")) = true := by
  cases v with
  | none => rfl
  | dict kvs =>
    have h' : wfNamed (.dict kvs) = true := h
    obtain ⟨s, hs⟩ := named_ok _ h'
    cases kvs with
    | nil => simp [wfNamed] at h'
    | cons q qs => simp [PyVal.truthy, hs, okStr]
  | bool b => simp [wfOption, wfNamed] at h
  | int n => simp [wfOption, wfNamed] at h
  | str s => simp [wfOption, wfNamed] at h
  | list l => simp [wfOption, wfNamed] at h

/-- Helper: the multi_select branch returns a string on a well-formed
    payload. -/
theorem multiBranch_ok (v : PyVal) (h : wfMulti v = true) :
    okStr (match pyIter (orEmptyList v) with
      | .error e => .error e
      | .ok xs =>
        match mapE msItem xs with
        | .error e => .error e
        | .ok parts => .ok (.str (String.intercalate ", " parts))) = true := by
  cases v with
  | none => rfl
  | list xs =>
    simp only [wfMulti] at h
    cases xs with
    | nil => rfl
    | cons a as =>
      obtain ⟨l, hl⟩ := mapE_ok msItem_ok (a :: as) h
      simp [orEmptyList, PyVal.truthy, pyIter, hl, okStr]
  | bool b => simp [wfMulti] at h
  | int n => simp [wfMulti] at h
  | str s => simp [wfMulti] at h
  | dict kvs => simp [wfMulti] at h

/-- Helper: the date branch returns a string on a well-formed payload. -/
theorem dateBranch_ok (v : PyVal) (h : wfDateP v = true) :
    okStr (if v.truthy then pyGet v "start" (.str "") else .ok (.str "")) = true := by
  cases v with
  | none => rfl
  | dict kvs =>
    simp only [wfDateP] at h
    obtain ⟨s, hs⟩ := isStrVal_exists _ h
    cases kvs with
    | nil => rfl
    | cons q qs => simp [PyVal.truthy, pyGet, hs, okStr]
  | bool b => simp [wfDateP] at h
  | int n => simp [wfDateP] at h
  | str s => simp [wfDateP] at h
  | list l => simp [wfDateP] at h

/-- Helper: the email, phone_number and url branch returns a string on a
    well-formed payload. -/
theorem emailBranch_ok (v : PyVal) (h : wfStrPayload v = true) :
    okStr (.ok (if v.truthy then v else .str "")) = true := by
  cases v with
  | none => rfl
  | str s => by_cases hs : s = "" <;> simp [PyVal.truthy, hs, okStr]
  | bool b => simp [wfStrPayload] at h
  | int n => simp [wfStrPayload] at h
  | list l => simp [wfStrPayload] at h
  | dict kvs => simp [wfStrPayload] at h

/-- Helper: the people branch returns a string on a well-formed
    payload. -/
theorem peopleBranch_ok (v : PyVal) (h : wfPeopleP v = true) :
    okStr (match pyIter (orEmptyList v) with
      | .error e => .error e
      | .ok xs =>
        match mapE personItem xs with
        | .error e => .error e
        | .ok parts => .ok (.str (String.intercalate ", " parts))) = true := by
  cases v with
  | none => rfl
  | list xs =>
    simp only [wfPeopleP] at h
    cases xs with
    | nil => rfl
    | cons a as =>
      obtain ⟨l, hl⟩ := mapE_ok personItem_ok (a :: as) h
      simp [orEmptyList, PyVal.truthy, pyIter, hl, okStr]
  | bool b => simp [wfPeopleP] at h
  | int n => simp [wfPeopleP] at h
  | str s => simp [wfPeopleP] at h
  | dict kvs => simp [wfPeopleP] at h

/-- Helper: the relation branch returns a string on a well-formed
    payload. -/
theorem relBranch_ok (v : PyVal) (h : wfRelP v = true) :
    okStr (match pyIter (orEmptyList v) with
      | .error e => .error e
      | .ok xs =>
        match mapE relItem xs with
        | .error e => .error e
        | .ok parts => .ok (.str (String.intercalate ", " parts))) = true := by
  cases v with
  | none => rfl
  | list xs =>
    simp only [wfRelP] at h
    cases xs with
    | nil => rfl
    | cons a as =>
      obtain ⟨l, hl⟩ := mapE_ok relItem_ok (a :: as) h
      simp [orEmptyList, PyVal.truthy, pyIter, hl, okStr]
  | bool b => simp [wfRelP] at h
  | int n => simp [wfRelP] at h
  | str s => simp [wfRelP] at h
  | dict kvs => simp [wfRelP] at h

/-- Helper: the formula branch returns a string on a well-formed
    payload. -/
theorem formulaBranch_ok (v : PyVal) (h : wfFormulaP v = true) :
    okStr (match pyGet (if v.truthy then v else .dict []) "type" .none with
      | .error e => .error e
      | .ok ft =>
        if ft.truthy then
          match pyGetKey (if v.truthy then v else .dict []) ft .none with
          | .error e => .error e
          | .ok u => .ok (.str (pyStr (if u.truthy then u else .str "")))
        else .ok (.str "")) = true := by
  cases v with
  | none => rfl
  | dict kvs =>
    simp only [wfFormulaP] at h
    cases kvs with
    | nil => rfl
    | cons q qs =>
      cases hft : lookupD (q :: qs) "type" .none with
      | str s' =>
        by_cases hs' : s' = "" <;>
          simp [PyVal.truthy, pyGet, pyGetKey, hft, hs', okStr]
      | none => simp [PyVal.truthy, pyGet, hft, okStr]
      | bool b =>
        cases b <;> simp [PyVal.truthy, pyGet, pyGetKey, hft, okStr]
      | int n =>
        by_cases hn : n = 0 <;>
          simp [PyVal.truthy, pyGet, pyGetKey, hft, hn, okStr]
      | list l => rw [hft] at h; simp [hashableVal] at h
      | dict d => rw [hft] at h; simp [hashableVal] at h
  | bool b => simp [wfFormulaP] at h
  | int n => simp [wfFormulaP] at h
  | str s => simp [wfFormulaP] at h
  | list l => simp [wfFormulaP] at h

set_option maxHeartbeats 1000000 in
/-- Helper: every branch of the per-kind dispatch returns a string on a
    payload that is well-formed for the tag. -/
theorem propDispatch_okStr (t : PyVal) (v : PyVal) (h : wfPayload t v = true) :
    okStr (propDispatch t v) = true := by
  cases t with
  | str st =>
    simp only [propDispatch, wfPayload, isStrEq] at h ⊢
    by_cases e1 : (st == "title") = true
    · rw [if_pos e1] at h ⊢
      exact richBranch_ok v h
    rw [if_neg e1] at h ⊢
    by_cases e2 : (st == "rich_text") = true
    · rw [if_pos e2] at h ⊢
      exact richBranch_ok v h
    rw [if_neg e2] at h ⊢
    by_cases e3 : (st == "number") = true
    · rw [if_pos e3]
      rfl
    rw [if_neg e3] at h ⊢
    by_cases e4 : (st == "checkbox") = true
    · rw [if_pos e4]
      rfl
    rw [if_neg e4] at h ⊢
    by_cases e5 : (st == "select") = true
    · rw [if_pos e5] at h ⊢
      exact selectBranch_ok v h
    rw [if_neg e5] at h ⊢
    by_cases e6 : (st == "multi_select") = true
    · rw [if_pos e6] at h ⊢
      exact multiBranch_ok v h
    rw [if_neg e6] at h ⊢
    by_cases e7 : (st == "date") = true
    · rw [if_pos e7] at h ⊢
      exact dateBranch_ok v h
    rw [if_neg e7] at h ⊢
    by_cases e8 : (st == "email" || st == "phone_number" || st == "url") = true
    · rw [if_pos e8] at h ⊢
      exact emailBranch_ok v h
    rw [if_neg e8] at h ⊢
    by_cases e9 : (st == "people") = true
    · rw [if_pos e9] at h ⊢
      exact peopleBranch_ok v h
    rw [if_neg e9] at h ⊢
    by_cases e10 : (st == "relation") = true
    · rw [if_pos e10] at h ⊢
      exact relBranch_ok v h
    rw [if_neg e10] at h ⊢
    by_cases e11 : (st == "formula") = true
    · rw [if_pos e11] at h ⊢
      exact formulaBranch_ok v h
    rw [if_neg e11] at h ⊢
    by_cases e12 : (st == "status") = true
    · rw [if_pos e12] at h ⊢
      exact selectBranch_ok v h
    rw [if_neg e12]
    cases v <;> rfl
  | none => cases v <;> rfl
  | bool b => cases v <;> rfl
  | int n => cases v <;> rfl
  | list l => cases v <;> rfl
  | dict kvs => cases v <;> rfl

/-- C2 (amended): normalize is total and string-valued on every
    well-formed Property — including unrecognized kinds, which degrade
    to the payload string form or the empty string — but it is not total
    on malformed payloads: a select, status or multi_select payload
    object lacking the option name raises KeyError (see the
    counterexample), and unexpected payload shapes can raise
    AttributeError or TypeError. -/
theorem c2_normalize_total_on_wellformed (p : PyVal) (h : wfProp p = true) :
    ∃ s, notion_prop_to_str p = .ok (.str s) := by
  apply okStr_exists
  cases p with
  | dict kvs =>
    simp only [wfProp] at h
    cases ht : lookupD kvs "type" .none with
    | str t =>
      rw [ht] at h
      by_cases ht0 : t = ""
      · simp [notion_prop_to_str, pyGet, ht, ht0, PyVal.truthy, okStr]
      · simp only [notion_prop_to_str, pyGet, pyGetKey, ht]
        have htt : (PyVal.str t).truthy = true := by simp [PyVal.truthy, ht0]
        rw [htt]
        simpa using propDispatch_okStr (.str t) (lookupD kvs t .none) h
    | none => simp [notion_prop_to_str, pyGet, ht, PyVal.truthy, okStr]
    | bool b =>
      cases b with
      | false => simp [notion_prop_to_str, pyGet, ht, PyVal.truthy, okStr]
      | true =>
        simp [notion_prop_to_str, pyGet, pyGetKey, ht, PyVal.truthy,
          propDispatch, isStrEq, okStr]
    | int n =>
      by_cases hn : n = 0
      · simp [notion_prop_to_str, pyGet, ht, PyVal.truthy, hn, okStr]
      · simp [notion_prop_to_str, pyGet, pyGetKey, ht, PyVal.truthy, hn,
          propDispatch, isStrEq, okStr]
    | list l => rw [ht] at h; exact absurd h (by simp)
    | dict d => rw [ht] at h; exact absurd h (by simp)
  | none => simp [wfProp] at h
  | bool b => simp [wfProp] at h
  | int n => simp [wfProp] at h
  | str s => simp [wfProp] at h
  | list l => simp [wfProp] at h

/-- C2 (witness): a concrete well-formed title property normalizes to a
    returned string. -/
theorem c2_normalize_total_on_wellformed_witness :
    ∃ s, notion_prop_to_str titleAcme = .ok (.str s) :=
  c2_normalize_total_on_wellformed titleAcme (by rfl)

end DocsToPDF
